import Mathlib

/-!
Verification of the diamond price-prediction app.

Shallow embedding of the three Python source files of the repository
(app.py, utils/preprocessing.py, utils/visualizer.py) and proofs of
the specification claims about them.

Modelling conventions:
* Python floats are modelled as exact rationals.
* The transcendental library functions (np.log1p, np.expm1, the cube
  root `carat ** (1/3)`, np.cos, np.sin) are modelled as abstract
  function parameters; theorems quantify over them, adding only the
  algebraic facts the proofs need (for cos/sin, the Pythagorean
  identity at the eight mesh angles) as explicit hypotheses.
* A call of np.random.default_rng() followed by rng.uniform(lo, hi, n)
  is modelled by an explicit entropy stream `u : ℕ → ℚ` of unit draws
  in the interval `[0, 1)`; `uniform lo hi` rescales `n` consecutive
  draws.  A fresh stream per call models the fresh generator the code
  creates.
* Python `dict[k]` (which raises KeyError) is `elookup` returning
  `Except String`; `dict.get(k, d)` is `alookup` followed by `getD d`.
* Python `round(x, 2)` is `round2` (round to a whole number of
  hundredths).
* Pandas DataFrames are association lists from column labels to the
  list of column values; positional frames are labelled by `Sum.inl`
  naturals, name-keyed frames by `Sum.inr` strings.
-/

namespace DiamondApp

/-- Association-list lookup, modelling Python `dict.get(k)` (no raise). -/
def alookup (m : List (String × α)) (k : String) : Option α :=
  match m with
  | [] => none
  | (k', v) :: rest => if k = k' then some v else alookup rest k

/-- Python `dict[k]`: raises KeyError on a missing key. -/
def elookup (m : List (String × α)) (k : String) : Except String α :=
  match alookup m k with
  | some v => Except.ok v
  | none => Except.error ("KeyError: " ++ k)

/-- Python `round(x, 2)` on our exact rationals: round to hundredths.
(Python uses round-half-even on binary floats; no value this
development evaluates sits on a half-hundredth tie, so the
tie-breaking rule is immaterial.) -/
def round2 (q : ℚ) : ℚ := (round (100 * q) : ℤ) / 100

/-! Embedding of utils/preprocessing.py. -/

/-- Map `CUT_MAP` of preprocessing.py (and the textually identical
`cut_map` of app.py line 173). -/
def CUT_MAP : List (String × ℚ) :=
  [("Fair", 1), ("Good", 2), ("Very Good", 3), ("Premium", 4), ("Ideal", 5)]

/-- Map `COLOR_MAP` of preprocessing.py (= `color_map` of app.py). -/
def COLOR_MAP : List (String × ℚ) :=
  [("J", 1), ("I", 2), ("H", 3), ("G", 4), ("F", 5), ("E", 6), ("D", 7)]

/-- Map `CLARITY_MAP` of preprocessing.py (= `clarity_map` of app.py). -/
def CLARITY_MAP : List (String × ℚ) :=
  [("I1", 1), ("SI2", 2), ("SI1", 3), ("VS2", 4), ("VS1", 5),
   ("VVS2", 6), ("VVS1", 7), ("IF", 8)]

/-- Result record of `calculate_physics`. -/
structure Physics where
  diameter : ℚ
  depth_mm : ℚ
  vol : ℚ
deriving DecidableEq, Repr

/-- Function `calculate_physics(carat, depth_pct)` of preprocessing.py.
The parameter `cbrt` models the float cube root `carat ** (1/3)`. -/
def calculate_physics (cbrt : ℚ → ℚ) (carat depth_pct : ℚ) : Physics :=
  let diameter : ℚ := 6.5 * cbrt carat
  let total_depth_mm : ℚ := diameter * (depth_pct / 100)
  let est_volume : ℚ := diameter * diameter * total_depth_mm
  { diameter := round2 diameter
    depth_mm := round2 total_depth_mm
    vol := round2 est_volume }

/-- Function `prepare_input_df` of preprocessing.py: feature
engineering ending in a one-row name-keyed DataFrame (here: an
association list, column name to one-element value list).  The three
`dict[grade]` lookups can raise KeyError, evaluated in source order
cut, color, clarity. -/
def prepare_input_df (log1p : ℚ → ℚ) (u_carat : ℚ)
    (u_cut u_color u_clarity : String) (u_depth u_table u_vol : ℚ) :
    Except String (List (String × List ℚ)) :=
  let log_carat := log1p u_carat
  let log_volume := log1p u_vol
  match elookup CUT_MAP u_cut with
  | Except.error e => Except.error e
  | Except.ok c_score =>
    match elookup COLOR_MAP u_color with
    | Except.error e => Except.error e
    | Except.ok col_score =>
      match elookup CLARITY_MAP u_clarity with
      | Except.error e => Except.error e
      | Except.ok cla_score =>
        Except.ok [("log_carat", [log_carat]),
                   ("log_volume", [log_volume]),
                   ("table", [u_table]),
                   ("depth", [u_depth]),
                   ("int_carat_color", [log_carat * col_score]),
                   ("int_carat_clarity", [log_carat * cla_score]),
                   ("int_carat_cut", [log_carat * c_score])]

/-! Color and inclusion lookups of app.py and visualizer.py. -/

/-- Function `get_diamond_color(grade)` of app.py (total: `.get` with
default white). -/
def get_diamond_color (grade : String) : String :=
  (alookup
    [("D", "#FFFFFF"), ("E", "#F0F8FF"), ("F", "#F0FFFF"),
     ("G", "#F5F5F5"), ("H", "#FFFACD"), ("I", "#FFF8DC"), ("J", "#F0E68C")]
    grade).getD "#FFFFFF"

/-- Function `_get_hex_color(grade)` of visualizer.py (total, default
white).  Renamed `get_hex_color` because Lean reserves a leading
underscore. -/
def get_hex_color (grade : String) : String :=
  (alookup
    [("D", "#F0F8FF"), ("E", "#F5FAFA"), ("F", "#FFFFFF"),
     ("G", "#FFFFF0"), ("H", "#FFFACD"), ("I", "#FFF8DC"), ("J", "#FAFAD2")]
    grade).getD "#FFFFFF"

/-- Severity table inside `generate_inclusions` (app.py). -/
def severity_app : List (String × ℕ) :=
  [("IF", 0), ("VVS1", 2), ("VVS2", 5), ("VS1", 10), ("VS2", 20),
   ("SI1", 40), ("SI2", 80), ("I1", 150)]

/-- Severity table inside `_generate_inclusions` (visualizer.py). -/
def severity_viz : List (String × ℕ) :=
  [("IF", 0), ("VVS1", 1), ("VVS2", 3), ("VS1", 5), ("VS2", 10),
   ("SI1", 20), ("SI2", 40), ("I1", 80)]

/-- Inclusion count used by `generate_inclusions` (app.py):
`severity.get(clarity_grade, 0)`. -/
def inclusion_count_app (clarity_grade : String) : ℕ :=
  (alookup severity_app clarity_grade).getD 0

/-- Inclusion count used by `_generate_inclusions` (visualizer.py). -/
def inclusion_count_viz (clarity_grade : String) : ℕ :=
  (alookup severity_viz clarity_grade).getD 0

/-- Sampling `rng.uniform(lo, hi, count)` on an entropy stream `u` of
unit draws, consuming draws `off` through `off + count - 1`. -/
def uniform (lo hi : ℚ) (u : ℕ → ℚ) (off count : ℕ) : List ℚ :=
  (List.range count).map (fun i => lo + (hi - lo) * u (off + i))

/-- An entropy stream is valid when every unit draw lies in `[0, 1)`,
as `rng.uniform` guarantees. -/
def ValidEntropy (u : ℕ → ℚ) : Prop := ∀ n, 0 ≤ u n ∧ u n < 1

/-- Function `generate_inclusions(clarity_grade, radius_limit)` of
app.py: `None` when the severity count is 0, otherwise three arrays of
`count` uniform samples, x and y within `±0.7·radius_limit`, z in
`[0, 0.8·radius_limit)`. -/
def generate_inclusions (u : ℕ → ℚ) (clarity_grade : String)
    (radius_limit : ℚ) : Option (List ℚ × List ℚ × List ℚ) :=
  let count := inclusion_count_app clarity_grade
  if count = 0 then none
  else
    some (uniform (-(radius_limit * 0.7)) (radius_limit * 0.7) u 0 count,
          uniform (-(radius_limit * 0.7)) (radius_limit * 0.7) u count count,
          uniform 0 (radius_limit * 0.8) u (2 * count) count)

/-- Function `_generate_inclusions(clarity_grade, radius_limit)` of
visualizer.py: like the app.py version but with the halved severity
table, x and y within `±0.6·radius_limit`, z in
`[0, 0.5·radius_limit)`. -/
def generate_inclusions_viz (u : ℕ → ℚ) (clarity_grade : String)
    (radius_limit : ℚ) : Option (List ℚ × List ℚ × List ℚ) :=
  let count := inclusion_count_viz clarity_grade
  if count = 0 then none
  else
    some (uniform (-(radius_limit * 0.6)) (radius_limit * 0.6) u 0 count,
          uniform (-(radius_limit * 0.6)) (radius_limit * 0.6) u count count,
          uniform 0 (radius_limit * 0.5) u (2 * count) count)

/-! Embedding of the mesh generators.  Both generators evaluate cos and
sin at the eight angles `k·π/4`, `k = 0, …, 7` (numpy:
`np.linspace(0, 2*np.pi, 9)[:-1]`); a vertex index is a `Fin 8` and
`cosf k`, `sinf k` stand for `cos(k·π/4)`, `sin(k·π/4)`.  The wrap
`(i+1) % 8` of the source is `Fin 8` addition. -/

/-- Display record `specs` built by `generate_diamond_geometry`
(app.py line 121): diameter, diameter, total depth and bounding-box
volume, each through Python `round(·, 2)`. -/
structure Specs where
  x : ℚ
  y : ℚ
  z : ℚ
  vol : ℚ
deriving DecidableEq, Repr

/-- Output record of `generate_diamond_geometry` (app.py): the Mesh3d
vertex arrays x, y, z (zipped here into coordinate triples), the
wireframe polyline arrays xl, yl, zl (zipped, with `none` for the
`None` separators `add_line` appends), the display specs and the
girdle radius. -/
structure GeoOut where
  verts : List (ℚ × ℚ × ℚ)
  wire : List (Option (ℚ × ℚ × ℚ))
  specs : Specs
  radius : ℚ
deriving DecidableEq

/-- Function `generate_diamond_geometry(table_pct, depth_pct, carat)`
of app.py lines 78-122.  Vertex list: table-plane centre, the eight
table-ring vertices, the eight girdle vertices, the culet (the numpy
`concatenate` of line 100-102); wireframe: per segment the table edge,
girdle edge, crown rib, pavilion rib and star rib of lines 109-119. -/
def generate_diamond_geometry (cbrt : ℚ → ℚ) (cosf sinf : Fin 8 → ℚ)
    (table_pct depth_pct carat : ℚ) : GeoOut :=
  let diameter := 6.5 * cbrt carat
  let radius := diameter / 2
  let total_depth := diameter * (depth_pct / 100)
  let table_radius := radius * (table_pct / 100)
  let z_table := total_depth * 0.35
  let z_culet := -(total_depth * 0.65)
  let t : Fin 8 → ℚ × ℚ × ℚ := fun i =>
    (table_radius * cosf i, table_radius * sinf i, z_table)
  let g : Fin 8 → ℚ × ℚ × ℚ := fun i =>
    (radius * cosf i, radius * sinf i, 0)
  let c : ℚ × ℚ × ℚ := (0, 0, z_culet)
  let cent : ℚ × ℚ × ℚ := (0, 0, z_table)
  { verts := [cent] ++ (List.finRange 8).map t ++ (List.finRange 8).map g ++ [c]
    wire := (List.finRange 8).flatMap (fun i =>
      [some (t i), some (t (i + 1)), none,
       some (g i), some (g (i + 1)), none,
       some (t i), some (g i), none,
       some (g i), some c, none,
       some cent, some (t i), none])
    specs := { x := round2 diameter, y := round2 diameter,
               z := round2 total_depth,
               vol := round2 (diameter ^ 2 * total_depth) }
    radius := radius }

/-- Figure record built by `create_diamond_fig` (visualizer.py): the
inner-light mesh (trace 1: every coordinate of the surface mesh scaled
by 0.9), the surface mesh triangle soup (trace 2) with its tint color,
the wireframe (trace 3, `none` for separators) and the optional
inclusion scatter (trace 4). -/
structure Fig where
  innerVerts : List (ℚ × ℚ × ℚ)
  surfVerts : List (ℚ × ℚ × ℚ)
  surfColor : String
  wire : List (Option (ℚ × ℚ × ℚ))
  inclusions : Option (List ℚ × List ℚ × List ℚ)
deriving DecidableEq

/-- Function `create_diamond_fig(carat, table_pct, depth_pct,
color_grade, clarity_grade)` of visualizer.py lines 31-198.  Per
segment `add_tri` emits the table star facet, two crown triangles, two
girdle triangles and the pavilion triangle (18 vertices, lines
151-169); the wireframe emits table edge, girdle-top edge, crown rib
and pavilion rib (lines 210-227). -/
def create_diamond_fig (cbrt : ℚ → ℚ) (cosf sinf : Fin 8 → ℚ)
    (u : ℕ → ℚ) (carat table_pct depth_pct : ℚ)
    (color_grade clarity_grade : String) : Fig :=
  let diameter := 6.5 * cbrt carat
  let radius := diameter / 2
  let total_depth := diameter * (depth_pct / 100)
  let crown_height := total_depth * 0.15
  let pavilion_depth := total_depth * 0.43
  let girdle_thickness := total_depth * 0.02
  let table_radius := radius * (table_pct / 100)
  let z_table := crown_height + girdle_thickness / 2
  let z_girdle_top := girdle_thickness / 2
  let z_girdle_bot := -(girdle_thickness / 2)
  let z_culet := -pavilion_depth - girdle_thickness / 2
  let t : Fin 8 → ℚ × ℚ × ℚ := fun i =>
    (table_radius * cosf i, table_radius * sinf i, z_table)
  let gu : Fin 8 → ℚ × ℚ × ℚ := fun i =>
    (radius * cosf i, radius * sinf i, z_girdle_top)
  let gl : Fin 8 → ℚ × ℚ × ℚ := fun i =>
    (radius * cosf i, radius * sinf i, z_girdle_bot)
  let c : ℚ × ℚ × ℚ := (0, 0, z_culet)
  let ct : ℚ × ℚ × ℚ := (0, 0, z_table)
  let surf := (List.finRange 8).flatMap (fun i =>
    [ct, t i, t (i + 1),
     t i, gu i, gu (i + 1),
     t i, gu (i + 1), t (i + 1),
     gu i, gl i, gl (i + 1),
     gu i, gl (i + 1), gu (i + 1),
     gl i, c, gl (i + 1)])
  { innerVerts := surf.map (fun p => (p.1 * 0.9, p.2.1 * 0.9, p.2.2 * 0.9))
    surfVerts := surf
    surfColor := get_hex_color color_grade
    wire := (List.finRange 8).flatMap (fun i =>
      [some (t i), some (t (i + 1)), none,
       some (gu i), some (gu (i + 1)), none,
       some (t i), some (gu i), none,
       some (gl i), some c, none])
    inclusions := generate_inclusions_viz u clarity_grade radius }

/-- Figure assembled at app.py lines 145-158: the geometry and specs,
the mesh tint from `get_diamond_color`, and the inclusion scatter from
`generate_inclusions` called on the girdle radius. -/
structure AppFig where
  geo : GeoOut
  mesh_color : String
  inclusions : Option (List ℚ × List ℚ × List ℚ)
deriving DecidableEq

/-- Assembly of the app.py figure (lines 145-147): geometry first, then
color lookup, then inclusions on the returned radius. -/
def app_figure (cbrt : ℚ → ℚ) (cosf sinf : Fin 8 → ℚ) (u : ℕ → ℚ)
    (u_table u_depth u_carat : ℚ) (u_color u_clarity : String) : AppFig :=
  let geo := generate_diamond_geometry cbrt cosf sinf u_table u_depth u_carat
  { geo := geo
    mesh_color := get_diamond_color u_color
    inclusions := generate_inclusions u u_clarity geo.radius }

/-! Embedding of the prediction engine (app.py lines 166-259). -/

/-- Column label of a pandas DataFrame: positional frames built from a
bare list of lists get integer labels (`Sum.inl`), dictionary-built
frames get string labels (`Sum.inr`). -/
abbrev Label := ℕ ⊕ String

/-- One-row DataFrame: association list from column label to the
column's value list. -/
abbrev DFrame := List (Label × List ℚ)

/-- Column lookup in a DataFrame. -/
def dlookup (df : DFrame) (l : Label) : Option (List ℚ) :=
  match df with
  | [] => none
  | (l', v) :: rest => if l = l' then some v else dlookup rest l

/-- One-row positional DataFrame `pd.DataFrame([[v0, …, v6]])` (app.py
lines 192-196): integer column labels 0, 1, …. -/
def pos_frame (vals : List ℚ) : DFrame :=
  vals.enum.map (fun p => (Sum.inl p.1, [p.2]))

/-- Feature-engineering values of app.py lines 177-196, in the order of
the positional frame `input_df`: log carat, log volume, table, depth,
then the cut, color and clarity interactions. -/
def feature_values (log1p : ℚ → ℚ) (carat c_score col_score cla_score
    depth table vol : ℚ) : List ℚ :=
  let log_carat := log1p carat
  let log_volume := log1p vol
  [log_carat, log_volume, table, depth,
   log_carat * c_score, log_carat * col_score, log_carat * cla_score]

/-- Name-keyed DataFrame `input_data` of app.py lines 205-213 (the
frame the FIX comment builds for reordering). -/
def named_frame (log1p : ℚ → ℚ) (carat c_score col_score cla_score
    depth table vol : ℚ) : DFrame :=
  let log_carat := log1p carat
  let log_volume := log1p vol
  [(Sum.inr "log_carat", [log_carat]),
   (Sum.inr "log_volume", [log_volume]),
   (Sum.inr "table", [table]),
   (Sum.inr "depth", [depth]),
   (Sum.inr "int_carat_cut", [log_carat * c_score]),
   (Sum.inr "int_carat_color", [log_carat * col_score]),
   (Sum.inr "int_carat_clarity", [log_carat * cla_score])]

/-- Column re-selection `df[expected_features]` of app.py line 217:
for each requested name take that column, raising KeyError if a name
is missing. -/
def reindex (df : DFrame) : List String → Except String DFrame
  | [] => Except.ok []
  | n :: rest =>
    match dlookup df (Sum.inr n), reindex df rest with
    | some col, Except.ok tail => Except.ok ((Sum.inr n, col) :: tail)
    | some _, Except.error e => Except.error e
    | none, _ => Except.error ("KeyError: " ++ n)

/-- A loaded LightGBM booster: its `feature_name()` list and its
`predict` entry point (taking the DataFrame it is handed; prediction
may raise). -/
structure Booster where
  feature_names : List String
  predictFn : DFrame → Except String ℚ

/-- Values the success branch of the try block renders: the raw model
output `pred_log` and the displayed price `np.expm1(pred_log)`. -/
structure PredSuccess where
  pred_log : ℚ
  price : ℚ
deriving DecidableEq

/-- Body of the try block, app.py lines 200-256, together with the
trace of DataFrames passed to `model.predict`: read
`model.feature_name()`, build and reorder the name-keyed `input_data`
(line 217; its result is never used afterwards), then call
`model.predict(input_df)` — on the positional frame — and invert the
log price.  Either KeyError from the reorder or a predict failure
aborts the body with that error. -/
def try_body (expm1 : ℚ → ℚ) (m : Booster) (input_df input_data : DFrame) :
    Except String PredSuccess × List DFrame :=
  match reindex input_data m.feature_names with
  | Except.error e => (Except.error e, [])
  | Except.ok _ =>
    match m.predictFn input_df with
    | Except.error e => (Except.error e, [input_df])
    | Except.ok pred_log =>
      (Except.ok { pred_log := pred_log, price := expm1 pred_log }, [input_df])

/-- What the stats column renders for the prediction: the success price
card, or `st.error("Prediction Error: …")` from the except arm. -/
inductive StatsRender where
  | card : PredSuccess → StatsRender
  | errorCard : String → StatsRender
deriving DecidableEq

/-- Stats column of app.py lines 166-259: when the button is pressed or
a model is loaded, the three grade lookups run first (lines 181-183,
outside any try), then the positional `input_df` is built; with a
model present the try block runs and its failure is converted to an
error card.  The result pairs the rendered output with the trace of
predict calls; an uncaught KeyError surfaces as `Except.error`. -/
def stats_column (log1p expm1 : ℚ → ℚ) (m : Option Booster) (btn : Bool)
    (carat : ℚ) (cut color clarity : String) (depth table vol : ℚ) :
    Except String (Option StatsRender × List DFrame) :=
  if btn || m.isSome then
    match elookup CUT_MAP cut with
    | Except.error e => Except.error e
    | Except.ok c_score =>
      match elookup COLOR_MAP color with
      | Except.error e => Except.error e
      | Except.ok col_score =>
        match elookup CLARITY_MAP clarity with
        | Except.error e => Except.error e
        | Except.ok cla_score =>
          let vals := feature_values log1p carat c_score col_score cla_score
            depth table vol
          let input_df := pos_frame vals
          match m with
          | none => Except.ok (none, [])
          | some model =>
            let input_data := named_frame log1p carat c_score col_score
              cla_score depth table vol
            match try_body expm1 model input_df input_data with
            | (Except.ok s, tr) => Except.ok (some (StatsRender.card s), tr)
            | (Except.error e, tr) =>
              Except.ok (some (StatsRender.errorCard ("Prediction Error: " ++ e)), tr)
  else Except.ok (none, [])

/-- The seven feature names of the name-keyed frame, in its build
order. -/
def seven_names : List String :=
  ["log_carat", "log_volume", "table", "depth",
   "int_carat_cut", "int_carat_color", "int_carat_clarity"]

/-- The clarity grades offered by the UI selectbox (app.py line 131),
which are also exactly the keys of both severity tables and of
CLARITY_MAP. -/
def clarity_grades : List String :=
  ["IF", "VVS1", "VVS2", "VS1", "VS2", "SI1", "SI2", "I1"]

/-- The color grades offered by the UI selectbox (app.py line 130),
also exactly the keys of both hex-color tables and of COLOR_MAP. -/
def color_grades : List String := ["D", "E", "F", "G", "H", "I", "J"]

/-- Modelled from the spec sentence of claim C4 (refinement
comparator): the volume argument of the second feature as the claim
words it, `diameter^2 * depth_mm` with no rounding, where
`diameter = 6.5 * carat^(1/3)` and `depth_mm = diameter * depth% /
100`. -/
def claimed_volume_arg (cbrt : ℚ → ℚ) (carat depth_pct : ℚ) : ℚ :=
  (6.5 * cbrt carat) ^ 2 * ((6.5 * cbrt carat) * (depth_pct / 100))

/-! Helper lemmas about the lookup primitives. -/

theorem alookup_eq_none_iff {α : Type} (m : List (String × α)) (k : String) :
    alookup m k = none ↔ k ∉ m.map Prod.fst := by
  induction m with
  | nil => simp [alookup]
  | cons p rest ih =>
    obtain ⟨k', v⟩ := p
    by_cases h : k = k' <;> simp [alookup, h, ih]

theorem elookup_of_not_mem {α : Type} (m : List (String × α)) (k : String)
    (h : k ∉ m.map Prod.fst) :
    elookup m k = Except.error ("KeyError: " ++ k) := by
  rw [elookup, (alookup_eq_none_iff m k).mpr h]

theorem elookup_ok_iff {α : Type} (m : List (String × α)) (k : String) :
    (∃ v, elookup m k = Except.ok v) ↔ k ∈ m.map Prod.fst := by
  rw [elookup]
  rcases hm : alookup m k with _ | v
  · rw [alookup_eq_none_iff] at hm
    simp [hm]
  · have : k ∈ m.map Prod.fst := by
      by_contra hk
      rw [(alookup_eq_none_iff m k).mpr hk] at hm
      exact Option.noConfusion hm
    simp [this]

/-! Claim C8: the near-duplicate geometry revisions. -/

/-- Claim C8, counterexample: it is false that the two inclusion
generators produce the same number of points for every clarity grade,
and false that the two color-tint lookups agree on every grade D-J:
for VVS1 the app.py generator produces 2 points but the visualizer.py
one produces 1, and for color D app.py returns pure white while
visualizer.py returns alice blue. -/
theorem claim8_counterexample :
    inclusion_count_app "VVS1" ≠ inclusion_count_viz "VVS1" ∧
    get_diamond_color "D" ≠ get_hex_color "D" := by
  constructor <;> decide

/-- Claim C8, amended: the two revisions differ numerically, not just
cosmetically.  Over the eight clarity grades the two inclusion counts
agree exactly for IF (both 0); over the seven color grades the two hex
lookups agree exactly for H and I. -/
theorem claim8_amended_divergence :
    (∀ g ∈ clarity_grades,
      (inclusion_count_app g = inclusion_count_viz g ↔ g = "IF")) ∧
    (∀ g ∈ color_grades,
      (get_diamond_color g = get_hex_color g ↔ g = "H" ∨ g = "I")) := by
  constructor <;> decide

/-- Witness for the amended claim C8 at the concrete grades VVS1 and
H. -/
theorem claim8_amended_witness :
    (inclusion_count_app "VVS1" = inclusion_count_viz "VVS1" ↔ "VVS1" = "IF") ∧
    (get_diamond_color "H" = get_hex_color "H" ↔ "H" = "H" ∨ "H" = "I") :=
  ⟨claim8_amended_divergence.1 "VVS1" (by decide),
   claim8_amended_divergence.2 "H" (by decide)⟩

/-! Claim C9: partiality of the feature pipeline versus totality of
the geometry lookups. -/

/-- Claim C9: `prepare_input_df` succeeds exactly when the three grade
strings are keys of CUT_MAP, COLOR_MAP and CLARITY_MAP, and on any
grade outside the maps it fails with a KeyError naming that grade;
whereas `get_diamond_color`, `_get_hex_color` and the two severity
tables are total, returning white resp. zero inclusions on unknown
grades. -/
theorem claim9_partial_vs_total :
    (∀ (log1p : ℚ → ℚ) (carat : ℚ) (cut color clarity : String)
      (depth table vol : ℚ),
      (∃ df, prepare_input_df log1p carat cut color clarity depth table vol
          = Except.ok df) ↔
        (cut ∈ CUT_MAP.map Prod.fst ∧ color ∈ COLOR_MAP.map Prod.fst ∧
         clarity ∈ CLARITY_MAP.map Prod.fst)) ∧
    (∀ (log1p : ℚ → ℚ) (carat : ℚ) (cut color clarity : String)
      (depth table vol : ℚ),
      ¬(cut ∈ CUT_MAP.map Prod.fst ∧ color ∈ COLOR_MAP.map Prod.fst ∧
         clarity ∈ CLARITY_MAP.map Prod.fst) →
      ∃ g, prepare_input_df log1p carat cut color clarity depth table vol
          = Except.error ("KeyError: " ++ g)) ∧
    (∀ g, g ∉ color_grades →
      get_diamond_color g = "#FFFFFF" ∧ get_hex_color g = "#FFFFFF") ∧
    (∀ g, g ∉ clarity_grades →
      inclusion_count_app g = 0 ∧ inclusion_count_viz g = 0) := by
  refine ⟨?_, ?_, ?_, ?_⟩
  · intro log1p carat cut color clarity depth table vol
    constructor
    · rintro ⟨df, hdf⟩
      rcases h1 : elookup CUT_MAP cut with e1 | v1 <;>
        rcases h2 : elookup COLOR_MAP color with e2 | v2 <;>
        rcases h3 : elookup CLARITY_MAP clarity with e3 | v3 <;>
        simp [prepare_input_df, h1, h2, h3] at hdf
      exact ⟨(elookup_ok_iff CUT_MAP cut).mp ⟨v1, h1⟩,
             (elookup_ok_iff COLOR_MAP color).mp ⟨v2, h2⟩,
             (elookup_ok_iff CLARITY_MAP clarity).mp ⟨v3, h3⟩⟩
    · rintro ⟨hcut, hcol, hcla⟩
      obtain ⟨v1, h1⟩ := (elookup_ok_iff CUT_MAP cut).mpr hcut
      obtain ⟨v2, h2⟩ := (elookup_ok_iff COLOR_MAP color).mpr hcol
      obtain ⟨v3, h3⟩ := (elookup_ok_iff CLARITY_MAP clarity).mpr hcla
      exact ⟨[("log_carat", [log1p carat]), ("log_volume", [log1p vol]),
              ("table", [table]), ("depth", [depth]),
              ("int_carat_color", [log1p carat * v2]),
              ("int_carat_clarity", [log1p carat * v3]),
              ("int_carat_cut", [log1p carat * v1])],
             by simp only [prepare_input_df, h1, h2, h3]⟩
  · intro log1p carat cut color clarity depth table vol hno
    by_cases hcut : cut ∈ CUT_MAP.map Prod.fst
    · obtain ⟨v1, h1⟩ := (elookup_ok_iff CUT_MAP cut).mpr hcut
      by_cases hcol : color ∈ COLOR_MAP.map Prod.fst
      · obtain ⟨v2, h2⟩ := (elookup_ok_iff COLOR_MAP color).mpr hcol
        have hcla : clarity ∉ CLARITY_MAP.map Prod.fst := by
          intro hcla
          exact hno ⟨hcut, hcol, hcla⟩
        exact ⟨clarity, by
          simp [prepare_input_df, h1, h2,
            elookup_of_not_mem CLARITY_MAP clarity hcla]⟩
      · exact ⟨color, by
          simp [prepare_input_df, h1,
            elookup_of_not_mem COLOR_MAP color hcol]⟩
    · exact ⟨cut, by
        simp [prepare_input_df, elookup_of_not_mem CUT_MAP cut hcut]⟩
  · intro g hg
    have h1 : alookup [("D", "#FFFFFF"), ("E", "#F0F8FF"), ("F", "#F0FFFF"),
        ("G", "#F5F5F5"), ("H", "#FFFACD"), ("I", "#FFF8DC"),
        ("J", "#F0E68C")] g = none := by
      rw [alookup_eq_none_iff]
      simpa [color_grades] using hg
    have h2 : alookup [("D", "#F0F8FF"), ("E", "#F5FAFA"), ("F", "#FFFFFF"),
        ("G", "#FFFFF0"), ("H", "#FFFACD"), ("I", "#FFF8DC"),
        ("J", "#FAFAD2")] g = none := by
      rw [alookup_eq_none_iff]
      simpa [color_grades] using hg
    exact ⟨by rw [get_diamond_color, h1]; rfl,
           by rw [get_hex_color, h2]; rfl⟩
  · intro g hg
    have h1 : alookup severity_app g = none := by
      rw [alookup_eq_none_iff]
      simpa [severity_app, clarity_grades] using hg
    have h2 : alookup severity_viz g = none := by
      rw [alookup_eq_none_iff]
      simpa [severity_viz, clarity_grades] using hg
    exact ⟨by rw [inclusion_count_app, h1]; rfl,
           by rw [inclusion_count_viz, h2]; rfl⟩

/-- Witness for claim C9 on concrete inputs: the pipeline succeeds on
the defaults (Ideal, G, VS2), the string "XX" is not a key of
CUT_MAP and the pipeline fails on it with a KeyError, while the
geometry lookups silently default on "XX". -/
theorem claim9_witness :
    ((∃ df, prepare_input_df id 1 "Ideal" "G" "VS2" 61.5 57 168.89
        = Except.ok df) ↔
      ("Ideal" ∈ CUT_MAP.map Prod.fst ∧ "G" ∈ COLOR_MAP.map Prod.fst ∧
       "VS2" ∈ CLARITY_MAP.map Prod.fst)) ∧
    (∃ g, prepare_input_df id 1 "XX" "G" "VS2" 61.5 57 168.89
        = Except.error ("KeyError: " ++ g)) ∧
    (get_diamond_color "XX" = "#FFFFFF" ∧ get_hex_color "XX" = "#FFFFFF") ∧
    (inclusion_count_app "XX" = 0 ∧ inclusion_count_viz "XX" = 0) :=
  ⟨claim9_partial_vs_total.1 id 1 "Ideal" "G" "VS2" 61.5 57 168.89,
   claim9_partial_vs_total.2.1 id 1 "XX" "G" "VS2" 61.5 57 168.89
     (by decide),
   claim9_partial_vs_total.2.2.1 "XX" (by decide),
   claim9_partial_vs_total.2.2.2 "XX" (by decide)⟩

/-! Claim C1: which DataFrame reaches `model.predict`. -/

/-- Claim C1 fails on the code: app.py builds the reordered, name-keyed
frame `input_data[expected_features]` (line 217) but then calls
`model.predict(input_df)` on the positional frame (line 220), so the
reordered frame is dead.  Demonstration at the default inputs (carat 1,
Ideal / G / VS2, depth 61.5, table 57, log1p and expm1 taken as the
identity): against a detector booster that predicts 999 exactly when
the frame it receives has its columns arranged and labelled per
`feature_name()` and 0 otherwise, the try body (1) passes exactly one
frame to predict, namely the positional `input_df`, (2) yields
prediction 0, and (3) the reorder of line 217 did succeed and produced
a frame with the feature-name column arrangement, which differs from
the frame passed. -/
theorem claim1_positional_frame_predicted :
    (try_body id
        { feature_names := seven_names
          predictFn := fun d =>
            Except.ok
              (if d.map Prod.fst = seven_names.map Sum.inr then 999 else 0) }
        (pos_frame (feature_values id 1 5 4 4 61.5 57 168.89))
        (named_frame id 1 5 4 4 61.5 57 168.89)).2
      = [pos_frame (feature_values id 1 5 4 4 61.5 57 168.89)] ∧
    (try_body id
        { feature_names := seven_names
          predictFn := fun d =>
            Except.ok
              (if d.map Prod.fst = seven_names.map Sum.inr then 999 else 0) }
        (pos_frame (feature_values id 1 5 4 4 61.5 57 168.89))
        (named_frame id 1 5 4 4 61.5 57 168.89)).1
      = Except.ok { pred_log := 0, price := 0 } ∧
    reindex (named_frame id 1 5 4 4 61.5 57 168.89) seven_names
      = Except.ok (named_frame id 1 5 4 4 61.5 57 168.89) ∧
    (named_frame id 1 5 4 4 61.5 57 168.89).map Prod.fst
      = seven_names.map Sum.inr ∧
    (pos_frame (feature_values id 1 5 4 4 61.5 57 168.89)).map Prod.fst
      ≠ (named_frame id 1 5 4 4 61.5 57 168.89).map Prod.fst := by
  exact ⟨rfl, rfl, rfl, rfl, by decide⟩

/-! Claim C5: the try/except around the prediction call. -/

/-- Claim C5: with the grade lookups succeeding, (1) the stats column
never propagates an exception, whatever the model's reorder and
predict do; (2) a predict failure is caught and rendered as the
"Prediction Error: …" card; and (3) the grade lookups of app.py
lines 181-183 sit outside every handler: an unknown cut grade
propagates as an uncaught KeyError.  Together with the sources being
otherwise total functions, the try block of lines 200-259 is the only
failure-recovery logic. -/
theorem claim5_single_try_except (log1p expm1 : ℚ → ℚ) (model : Booster)
    (btn : Bool) (carat depth table vol : ℚ) (cut color clarity : String)
    (c col cla : ℚ)
    (hcut : elookup CUT_MAP cut = Except.ok c)
    (hcol : elookup COLOR_MAP color = Except.ok col)
    (hcla : elookup CLARITY_MAP clarity = Except.ok cla) :
    (∃ r tr, stats_column log1p expm1 (some model) btn carat cut color clarity
        depth table vol = Except.ok (some r, tr)) ∧
    (∀ e rdata,
      reindex (named_frame log1p carat c col cla depth table vol)
          model.feature_names = Except.ok rdata →
      model.predictFn
          (pos_frame (feature_values log1p carat c col cla depth table vol))
        = Except.error e →
      stats_column log1p expm1 (some model) btn carat cut color clarity
          depth table vol
        = Except.ok
            (some (StatsRender.errorCard ("Prediction Error: " ++ e)),
             [pos_frame (feature_values log1p carat c col cla depth table vol)])) ∧
    (∀ bad, bad ∉ CUT_MAP.map Prod.fst →
      stats_column log1p expm1 (some model) btn carat bad color clarity
          depth table vol = Except.error ("KeyError: " ++ bad)) := by
  have hbtn : (btn || (some model).isSome) = true := by simp
  refine ⟨?_, ?_, ?_⟩
  · rcases htb : try_body expm1 model
      (pos_frame (feature_values log1p carat c col cla depth table vol))
      (named_frame log1p carat c col cla depth table vol) with ⟨res, tr⟩
    cases res with
    | ok s =>
      exact ⟨StatsRender.card s, tr,
        by simp only [stats_column, hbtn, if_true, hcut, hcol, hcla, htb]⟩
    | error e =>
      exact ⟨StatsRender.errorCard ("Prediction Error: " ++ e), tr,
        by simp only [stats_column, hbtn, if_true, hcut, hcol, hcla, htb]⟩
  · intro e rdata hre hpred
    simp only [stats_column, hbtn, if_true, hcut, hcol, hcla, try_body,
      hre, hpred]
  · intro bad hbad
    simp only [stats_column, hbtn, if_true,
      elookup_of_not_mem CUT_MAP bad hbad]

/-- Witness for claim C5 at concrete inputs: a booster whose predict
always raises "boom"; its failure is caught and rendered, while the
unknown cut grade "XX" escapes as a KeyError. -/
theorem claim5_witness :
    (∃ r tr, stats_column id id
        (some { feature_names := ["log_carat"],
                predictFn := fun _ => Except.error "boom" })
        true 1 "Ideal" "G" "VS2" 61.5 57 168.89 = Except.ok (some r, tr)) ∧
    (stats_column id id
        (some { feature_names := ["log_carat"],
                predictFn := fun _ => Except.error "boom" })
        true 1 "Ideal" "G" "VS2" 61.5 57 168.89
      = Except.ok
          (some (StatsRender.errorCard ("Prediction Error: " ++ "boom")),
           [pos_frame (feature_values id 1 5 4 4 61.5 57 168.89)])) ∧
    (stats_column id id
        (some { feature_names := ["log_carat"],
                predictFn := fun _ => Except.error "boom" })
        true 1 "XX" "G" "VS2" 61.5 57 168.89
      = Except.error ("KeyError: " ++ "XX")) := by
  obtain ⟨h1, h2, h3⟩ := claim5_single_try_except id id
    { feature_names := ["log_carat"], predictFn := fun _ => Except.error "boom" }
    true 1 61.5 57 168.89 "Ideal" "G" "VS2" 5 4 4 rfl rfl rfl
  exact ⟨h1, h2 "boom" [(Sum.inr "log_carat", [id 1])] rfl rfl,
         h3 "XX" (by decide)⟩

/-! Claim C6: one frame, one row, seven columns, one predict call. -/

/-- Claim C6: with valid grades and a model whose feature-name reorder
succeeds, the stats column makes exactly one predict call, whose trace
is exactly the positional one-row frame with seven columns of one
value each; and `prepare_input_df` likewise builds a frame of exactly
seven columns with exactly one value each. -/
theorem claim6_one_frame_one_call (log1p expm1 : ℚ → ℚ) (model : Booster)
    (btn : Bool) (carat depth table vol : ℚ) (cut color clarity : String)
    (c col cla : ℚ) (rdata : DFrame)
    (hcut : elookup CUT_MAP cut = Except.ok c)
    (hcol : elookup COLOR_MAP color = Except.ok col)
    (hcla : elookup CLARITY_MAP clarity = Except.ok cla)
    (hre : reindex (named_frame log1p carat c col cla depth table vol)
        model.feature_names = Except.ok rdata) :
    (∃ render, stats_column log1p expm1 (some model) btn carat cut color
        clarity depth table vol
      = Except.ok (some render,
          [pos_frame (feature_values log1p carat c col cla depth table vol)])) ∧
    (pos_frame (feature_values log1p carat c col cla depth table vol)).length
        = 7 ∧
    (∀ p ∈ pos_frame (feature_values log1p carat c col cla depth table vol),
      p.2.length = 1) ∧
    (∃ df, prepare_input_df log1p carat cut color clarity depth table vol
        = Except.ok df ∧ df.length = 7 ∧ ∀ p ∈ df, p.2.length = 1) := by
  have hbtn : (btn || (some model).isSome) = true := by simp
  refine ⟨?_, ?_, ?_, ?_⟩
  · rcases hp : model.predictFn
        (pos_frame (feature_values log1p carat c col cla depth table vol))
      with e | pl
    · exact ⟨StatsRender.errorCard ("Prediction Error: " ++ e),
        by simp only [stats_column, hbtn, if_true, hcut, hcol, hcla, try_body,
          hre, hp]⟩
    · exact ⟨StatsRender.card { pred_log := pl, price := expm1 pl },
        by simp only [stats_column, hbtn, if_true, hcut, hcol, hcla, try_body,
          hre, hp]⟩
  · simp [pos_frame, feature_values]
  · intro p hp
    simp only [pos_frame, feature_values, List.enum, List.map, List.mem_cons,
      List.not_mem_nil, or_false] at hp
    rcases hp with rfl | rfl | rfl | rfl | rfl | rfl | rfl <;> rfl
  · refine ⟨[("log_carat", [log1p carat]), ("log_volume", [log1p vol]),
        ("table", [table]), ("depth", [depth]),
        ("int_carat_color", [log1p carat * col]),
        ("int_carat_clarity", [log1p carat * cla]),
        ("int_carat_cut", [log1p carat * c])],
      by simp only [prepare_input_df, hcut, hcol, hcla], rfl, ?_⟩
    intro p hp
    simp only [List.mem_cons, List.not_mem_nil, or_false] at hp
    rcases hp with rfl | rfl | rfl | rfl | rfl | rfl | rfl <;> rfl

/-- Witness for claim C6 at concrete inputs: the default selections,
the identity for the transcendental maps and a booster that expects
the seven features in build order and predicts 10. -/
theorem claim6_witness :
    (∃ render, stats_column id id
        (some { feature_names := seven_names, predictFn := fun _ => Except.ok 10 })
        true 1 "Ideal" "G" "VS2" 61.5 57 168.89
      = Except.ok (some render,
          [pos_frame (feature_values id 1 5 4 4 61.5 57 168.89)])) ∧
    (pos_frame (feature_values id 1 5 4 4 61.5 57 168.89)).length = 7 ∧
    (∀ p ∈ pos_frame (feature_values id 1 5 4 4 61.5 57 168.89),
      p.2.length = 1) ∧
    (∃ df, prepare_input_df id 1 "Ideal" "G" "VS2" 61.5 57 168.89
        = Except.ok df ∧ df.length = 7 ∧ ∀ p ∈ df, p.2.length = 1) :=
  claim6_one_frame_one_call id id
    { feature_names := seven_names, predictFn := fun _ => Except.ok 10 }
    true 1 61.5 57 168.89 "Ideal" "G" "VS2" 5 4 4
    (named_frame id 1 5 4 4 61.5 57 168.89) rfl rfl rfl rfl

/-! Claim C4: the feature vector and the displayed price. -/

/-- Claim C4 fails as stated on the rounding of the volume: at carat 1
(whose cube root is exactly 1, so `cbrt := fun _ => 1` is the true
cube root there) and depth 61.5%, the volume the app hands to log1p is
`specs['vol'] = round(diameter² · depth_mm, 2) = 168.89`, not the
claim's unrounded `diameter² · depth_mm = 168.894375`. -/
theorem claim4_counterexample :
    (generate_diamond_geometry (fun _ => 1) (fun _ => 1) (fun _ => 0)
        57 61.5 1).specs.vol = 168.89 ∧
    claimed_volume_arg (fun _ => 1) 1 61.5 = 168.894375 ∧
    (168.89 : ℚ) ≠ 168.894375 := by
  refine ⟨?_, by norm_num [claimed_volume_arg], by norm_num⟩
  show round2 ((6.5 * 1) ^ 2 * (6.5 * 1 * (61.5 / 100))) = 168.89
  norm_num [round2, round_eq]

/-- Claim C4, amended: the volume feature argument is the claim's
`diameter² · depth_mm` rounded to two decimals; with that amendment
the feature vector handed to the boosted-tree model consists exactly
of log1p(carat), log1p(round2(diameter² · depth_mm)), the raw table%
and depth%, and the three interactions log1p(carat) times the cut,
color and clarity scores from the ordinal maps; no other input enters
(the vector is a function of exactly these arguments), and on a
successful prediction the displayed price is expm1 of the model
output. -/
theorem claim4_amended_feature_vector (log1p expm1 cbrt : ℚ → ℚ)
    (cosf sinf : Fin 8 → ℚ) (model : Booster) (btn : Bool)
    (carat depth table : ℚ) (cut color clarity : String) (c col cla : ℚ)
    (rdata : DFrame)
    (hcut : elookup CUT_MAP cut = Except.ok c)
    (hcol : elookup COLOR_MAP color = Except.ok col)
    (hcla : elookup CLARITY_MAP clarity = Except.ok cla)
    (hre : reindex
        (named_frame log1p carat c col cla depth table
          (generate_diamond_geometry cbrt cosf sinf table depth carat).specs.vol)
        model.feature_names = Except.ok rdata) :
    (generate_diamond_geometry cbrt cosf sinf table depth carat).specs.vol
        = round2 (claimed_volume_arg cbrt carat depth) ∧
    feature_values log1p carat c col cla depth table
        (generate_diamond_geometry cbrt cosf sinf table depth carat).specs.vol
      = [log1p carat, log1p (round2 (claimed_volume_arg cbrt carat depth)),
         table, depth,
         log1p carat * c, log1p carat * col, log1p carat * cla] ∧
    (∀ pl,
      model.predictFn (pos_frame (feature_values log1p carat c col cla depth
          table
          (generate_diamond_geometry cbrt cosf sinf table depth carat).specs.vol))
        = Except.ok pl →
      stats_column log1p expm1 (some model) btn carat cut color clarity depth
          table
          (generate_diamond_geometry cbrt cosf sinf table depth carat).specs.vol
        = Except.ok
            (some (StatsRender.card { pred_log := pl, price := expm1 pl }),
             [pos_frame (feature_values log1p carat c col cla depth table
               (generate_diamond_geometry cbrt cosf sinf table depth carat).specs.vol)])) := by
  have hbtn : (btn || (some model).isSome) = true := by simp
  refine ⟨rfl, rfl, ?_⟩
  intro pl hp
  simp only [stats_column, hbtn, if_true, hcut, hcol, hcla, try_body, hre, hp]

/-- Witness for the amended claim C4 at concrete inputs (carat 1, cube
root 1, identity transcendentals, a booster predicting 10). -/
theorem claim4_amended_witness :
    (generate_diamond_geometry (fun _ => 1) (fun _ => 1) (fun _ => 0)
        57 61.5 1).specs.vol = round2 (claimed_volume_arg (fun _ => 1) 1 61.5) ∧
    feature_values id 1 5 4 4 61.5 57
        (generate_diamond_geometry (fun _ => 1) (fun _ => 1) (fun _ => 0)
          57 61.5 1).specs.vol
      = [id 1, id (round2 (claimed_volume_arg (fun _ => 1) 1 61.5)),
         57, 61.5, id 1 * 5, id 1 * 4, id 1 * 4] ∧
    (∀ pl,
      ({ feature_names := seven_names,
         predictFn := fun _ => Except.ok 10 } : Booster).predictFn
          (pos_frame (feature_values id 1 5 4 4 61.5 57
            (generate_diamond_geometry (fun _ => 1) (fun _ => 1) (fun _ => 0)
              57 61.5 1).specs.vol))
        = Except.ok pl →
      stats_column id id
          (some { feature_names := seven_names,
                  predictFn := fun _ => Except.ok 10 })
          true 1 "Ideal" "G" "VS2" 61.5 57
          (generate_diamond_geometry (fun _ => 1) (fun _ => 1) (fun _ => 0)
            57 61.5 1).specs.vol
        = Except.ok
            (some (StatsRender.card { pred_log := pl, price := id pl }),
             [pos_frame (feature_values id 1 5 4 4 61.5 57
               (generate_diamond_geometry (fun _ => 1) (fun _ => 1) (fun _ => 0)
                 57 61.5 1).specs.vol)])) :=
  claim4_amended_feature_vector id id (fun _ => 1) (fun _ => 1) (fun _ => 0)
    { feature_names := seven_names, predictFn := fun _ => Except.ok 10 }
    true 1 61.5 57 "Ideal" "G" "VS2" 5 4 4 _ rfl rfl rfl rfl

/-! Claim C7: mesh parameterization and displayed specs. -/

/-- Claim C7 fails as stated on the rounding of the displayed specs: at
carat 1 (cube root exactly 1) and depth 61.7%, the displayed total
depth is `round(diameter · depth%/100, 2) = 4.01` while the claimed
formula value is `6.5 · 0.617 = 4.0105`. -/
theorem claim7_counterexample :
    (generate_diamond_geometry (fun _ => 1) (fun _ => 1) (fun _ => 0)
        57 61.7 1).specs.z = 4.01 ∧
    (6.5 * (1 : ℚ)) * (61.7 / 100) = 4.0105 ∧ (4.01 : ℚ) ≠ 4.0105 := by
  refine ⟨?_, by norm_num, by norm_num⟩
  show round2 (6.5 * 1 * (61.7 / 100)) = 4.01
  norm_num [round2, round_eq]

/-- Claim C7, amended: the facet mesh is parameterized by the
carat-derived diameter `d = 6.5·carat^(1/3)`, table% and depth%: the
girdle radius is `d/2`; every vertex of the app.py mesh and of the
visualizer.py surface mesh lies at horizontal distance `d/2` (girdle
ring), `(d/2)·table%/100` (table ring) or `0` (axis points); the
app.py mesh's vertical extent, from the table-plane centre down to the
culet, is exactly the total depth `d·depth%/100`; and the displayed
physical specs are these same formulas rounded to two decimals
(`calculate_physics` agreeing with the geometry's specs). -/
theorem claim7_amended_parameterization (cbrt : ℚ → ℚ)
    (cosf sinf : Fin 8 → ℚ) (u : ℕ → ℚ) (carat table depth : ℚ)
    (color clarity : String)
    (hpyth : ∀ k : Fin 8, cosf k ^ 2 + sinf k ^ 2 = 1) :
    (generate_diamond_geometry cbrt cosf sinf table depth carat).radius
        = 6.5 * cbrt carat / 2 ∧
    (∀ v ∈ (generate_diamond_geometry cbrt cosf sinf table depth carat).verts,
      v.1 ^ 2 + v.2.1 ^ 2 = (6.5 * cbrt carat / 2) ^ 2 ∨
      v.1 ^ 2 + v.2.1 ^ 2 = (6.5 * cbrt carat / 2 * (table / 100)) ^ 2 ∨
      v.1 ^ 2 + v.2.1 ^ 2 = 0) ∧
    (∀ v ∈ (create_diamond_fig cbrt cosf sinf u carat table depth color
        clarity).surfVerts,
      v.1 ^ 2 + v.2.1 ^ 2 = (6.5 * cbrt carat / 2) ^ 2 ∨
      v.1 ^ 2 + v.2.1 ^ 2 = (6.5 * cbrt carat / 2 * (table / 100)) ^ 2 ∨
      v.1 ^ 2 + v.2.1 ^ 2 = 0) ∧
    (generate_diamond_geometry cbrt cosf sinf table depth carat).verts.head?
        = some (0, 0, 6.5 * cbrt carat * (depth / 100) * 0.35) ∧
    (generate_diamond_geometry cbrt cosf sinf table depth
        carat).verts.getLast?
        = some (0, 0, -(6.5 * cbrt carat * (depth / 100) * 0.65)) ∧
    6.5 * cbrt carat * (depth / 100) * 0.35
        - -(6.5 * cbrt carat * (depth / 100) * 0.65)
        = 6.5 * cbrt carat * (depth / 100) ∧
    (generate_diamond_geometry cbrt cosf sinf table depth carat).specs
        = { x := round2 (6.5 * cbrt carat), y := round2 (6.5 * cbrt carat),
            z := round2 (6.5 * cbrt carat * (depth / 100)),
            vol := round2 ((6.5 * cbrt carat) ^ 2
                     * (6.5 * cbrt carat * (depth / 100))) } ∧
    calculate_physics cbrt carat depth
        = { diameter := round2 (6.5 * cbrt carat),
            depth_mm := round2 (6.5 * cbrt carat * (depth / 100)),
            vol := round2 ((6.5 * cbrt carat) ^ 2
                     * (6.5 * cbrt carat * (depth / 100))) } := by
  have hradius : ∀ i : Fin 8,
      (6.5 * cbrt carat / 2 * cosf i) ^ 2
        + (6.5 * cbrt carat / 2 * sinf i) ^ 2
        = (6.5 * cbrt carat / 2) ^ 2 := by
    intro i
    have h : (6.5 * cbrt carat / 2 * cosf i) ^ 2
        + (6.5 * cbrt carat / 2 * sinf i) ^ 2
        = (6.5 * cbrt carat / 2) ^ 2 * (cosf i ^ 2 + sinf i ^ 2) := by ring
    rw [h, hpyth i, mul_one]
  have htable : ∀ i : Fin 8,
      (6.5 * cbrt carat / 2 * (table / 100) * cosf i) ^ 2
        + (6.5 * cbrt carat / 2 * (table / 100) * sinf i) ^ 2
        = (6.5 * cbrt carat / 2 * (table / 100)) ^ 2 := by
    intro i
    have h : (6.5 * cbrt carat / 2 * (table / 100) * cosf i) ^ 2
        + (6.5 * cbrt carat / 2 * (table / 100) * sinf i) ^ 2
        = (6.5 * cbrt carat / 2 * (table / 100)) ^ 2
            * (cosf i ^ 2 + sinf i ^ 2) := by ring
    rw [h, hpyth i, mul_one]
  refine ⟨rfl, ?_, ?_, rfl, ?_, by ring, rfl, ?_⟩
  · intro v hv
    simp only [generate_diamond_geometry, List.mem_append, List.mem_map,
      List.mem_singleton, List.mem_cons, List.not_mem_nil, or_false,
      List.mem_finRange, true_and] at hv
    rcases hv with ((rfl | ⟨i, rfl⟩) | ⟨i, rfl⟩) | rfl
    · right; right; norm_num
    · right; left; exact htable i
    · left; exact hradius i
    · right; right; norm_num
  · intro v hv
    simp only [create_diamond_fig, List.mem_flatMap, List.mem_cons,
      List.not_mem_nil, or_false, List.mem_finRange, true_and] at hv
    obtain ⟨i, hv⟩ := hv
    rcases hv with rfl | rfl | rfl | rfl | rfl | rfl | rfl | rfl | rfl | rfl
      | rfl | rfl | rfl | rfl | rfl | rfl | rfl | rfl
    all_goals first
      | exact Or.inl (hradius i)
      | exact Or.inl (hradius (i + 1))
      | exact Or.inr (Or.inl (htable i))
      | exact Or.inr (Or.inl (htable (i + 1)))
      | exact Or.inr (Or.inr (by norm_num))
  · show List.getLast? (_ ++ _ ++ _ ++ [(0, 0,
      -(6.5 * cbrt carat * (depth / 100) * 0.65))]) = _
    rw [List.getLast?_append, List.getLast?_singleton]
    rfl
  · refine Physics.mk.injEq .. |>.mpr ⟨rfl, rfl, ?_⟩
    show round2 (6.5 * cbrt carat * (6.5 * cbrt carat)
      * (6.5 * cbrt carat * (depth / 100))) = _
    exact congrArg round2 (by ring)

/-- Witness for the amended claim C7 at carat 1 (cube root 1), table
57%, depth 61.5%, with cos/sin taken as the constant Pythagorean pair
(1, 0). -/
theorem claim7_amended_witness :
    (generate_diamond_geometry (fun _ => 1) (fun _ => 1) (fun _ => 0)
        57 61.5 1).radius = 6.5 * 1 / 2 ∧
    (∀ v ∈ (generate_diamond_geometry (fun _ => 1) (fun _ => 1) (fun _ => 0)
        57 61.5 1).verts,
      v.1 ^ 2 + v.2.1 ^ 2 = (6.5 * 1 / 2) ^ 2 ∨
      v.1 ^ 2 + v.2.1 ^ 2 = (6.5 * 1 / 2 * (57 / 100)) ^ 2 ∨
      v.1 ^ 2 + v.2.1 ^ 2 = 0) :=
  ⟨(claim7_amended_parameterization (fun _ => 1) (fun _ => 1) (fun _ => 0)
      (fun _ => 0) 1 57 61.5 "G" "VS2" (fun _ => by norm_num)).1,
   (claim7_amended_parameterization (fun _ => 1) (fun _ => 1) (fun _ => 0)
      (fun _ => 0) 1 57 61.5 "G" "VS2" (fun _ => by norm_num)).2.1⟩

/-! Claim C3: purity and determinism of the mesh generators. -/

/-- Claim C3 fails on the code for `create_diamond_fig`: the function
calls `np.random.default_rng()` and draws fresh uniforms on every
call, so two calls with identical arguments (carat 1, table 57%, depth
61.5%, color G, clarity VVS1) differ whenever the clarity grade has a
nonzero severity count.  Modelled with two valid entropy streams (the
constant unit draws 0 and 1/2), the two figures differ in their
inclusion scatter. -/
theorem claim3_counterexample :
    ValidEntropy (fun _ => (0 : ℚ)) ∧ ValidEntropy (fun _ => (1 / 2 : ℚ)) ∧
    create_diamond_fig (fun _ => 1) (fun _ => 1) (fun _ => 0)
        (fun _ => (0 : ℚ)) 1 57 61.5 "G" "VVS1"
      ≠ create_diamond_fig (fun _ => 1) (fun _ => 1) (fun _ => 0)
        (fun _ => (1 / 2 : ℚ)) 1 57 61.5 "G" "VVS1" := by
  refine ⟨fun n => by norm_num [ValidEntropy], fun n => by norm_num, ?_⟩
  intro h
  have h1 := congrArg Fig.inclusions h
  have hcount : inclusion_count_viz "VVS1" = 1 := by decide
  simp only [create_diamond_fig, generate_inclusions_viz, hcount] at h1
  norm_num [uniform, List.range_succ, List.range_zero] at h1

/-- Claim C3, amended: `generate_diamond_geometry` is pure, stateless,
synchronous math — the figure geometry and tint the app builds from it
do not depend on the entropy stream at all — and `create_diamond_fig`
is likewise deterministic in every field except the inclusion scatter,
which draws fresh randomness per call; when the clarity grade has
severity count 0 (grade IF or an unknown grade) both figures are fully
deterministic. -/
theorem claim3_amended_determinism (cbrt : ℚ → ℚ) (cosf sinf : Fin 8 → ℚ)
    (u1 u2 : ℕ → ℚ) (carat table depth : ℚ) (color clarity : String) :
    (app_figure cbrt cosf sinf u1 table depth carat color clarity).geo
      = (app_figure cbrt cosf sinf u2 table depth carat color clarity).geo ∧
    (app_figure cbrt cosf sinf u1 table depth carat color clarity).mesh_color
      = (app_figure cbrt cosf sinf u2 table depth carat color
          clarity).mesh_color ∧
    (create_diamond_fig cbrt cosf sinf u1 carat table depth color
        clarity).innerVerts
      = (create_diamond_fig cbrt cosf sinf u2 carat table depth color
          clarity).innerVerts ∧
    (create_diamond_fig cbrt cosf sinf u1 carat table depth color
        clarity).surfVerts
      = (create_diamond_fig cbrt cosf sinf u2 carat table depth color
          clarity).surfVerts ∧
    (create_diamond_fig cbrt cosf sinf u1 carat table depth color
        clarity).surfColor
      = (create_diamond_fig cbrt cosf sinf u2 carat table depth color
          clarity).surfColor ∧
    (create_diamond_fig cbrt cosf sinf u1 carat table depth color
        clarity).wire
      = (create_diamond_fig cbrt cosf sinf u2 carat table depth color
          clarity).wire ∧
    (inclusion_count_viz clarity = 0 →
      create_diamond_fig cbrt cosf sinf u1 carat table depth color clarity
        = create_diamond_fig cbrt cosf sinf u2 carat table depth color
            clarity) ∧
    (inclusion_count_app clarity = 0 →
      app_figure cbrt cosf sinf u1 table depth carat color clarity
        = app_figure cbrt cosf sinf u2 table depth carat color clarity) := by
  refine ⟨rfl, rfl, rfl, rfl, rfl, rfl, ?_, ?_⟩
  · intro h
    simp [create_diamond_fig, generate_inclusions_viz, h]
  · intro h
    simp [app_figure, generate_inclusions, h]

/-- Witness for the amended claim C3 with the two constant entropy
streams 0 and 1/2 and the clarity grade IF, whose severity count is
zero in both tables, so both figures are fully deterministic. -/
theorem claim3_amended_witness :
    (inclusion_count_viz "IF" = 0 ∧ inclusion_count_app "IF" = 0) ∧
    create_diamond_fig (fun _ => 1) (fun _ => 1) (fun _ => 0)
        (fun _ => (0 : ℚ)) 1 57 61.5 "G" "IF"
      = create_diamond_fig (fun _ => 1) (fun _ => 1) (fun _ => 0)
        (fun _ => (1 / 2 : ℚ)) 1 57 61.5 "G" "IF" ∧
    app_figure (fun _ => 1) (fun _ => 1) (fun _ => 0) (fun _ => (0 : ℚ))
        57 61.5 1 "G" "IF"
      = app_figure (fun _ => 1) (fun _ => 1) (fun _ => 0)
        (fun _ => (1 / 2 : ℚ)) 57 61.5 1 "G" "IF" :=
  ⟨⟨by decide, by decide⟩,
   (claim3_amended_determinism (fun _ => 1) (fun _ => 1) (fun _ => 0)
      (fun _ => (0 : ℚ)) (fun _ => (1 / 2 : ℚ)) 1 57 61.5 "G"
      "IF").2.2.2.2.2.2.1 (by decide),
   (claim3_amended_determinism (fun _ => 1) (fun _ => 1) (fun _ => 0)
      (fun _ => (0 : ℚ)) (fun _ => (1 / 2 : ℚ)) 1 57 61.5 "G"
      "IF").2.2.2.2.2.2.2 (by decide)⟩

/-! Claim C2: inclusion placement versus the facet envelope. -/

/-- Claim C2 fails on the code: the sampled inclusion height is not
clipped below the table plane.  At carat 1 (cube root exactly 1),
depth 61.5% and clarity SI1 the girdle radius is 3.25, the table plane
of the mesh sits at z = 1.399125 (the maximum z of every mesh vertex),
yet the valid entropy stream of constant unit draws 99/100 puts a
sampled z-coordinate at 0.8·3.25·0.99 = 2.574, far above the table
plane. -/
theorem claim2_counterexample :
    ValidEntropy (fun _ => (99 / 100 : ℚ)) ∧
    (generate_diamond_geometry (fun _ => 1) (fun _ => 1) (fun _ => 0)
        57 61.5 1).radius = 3.25 ∧
    (∃ xs ys zs,
      generate_inclusions (fun _ => (99 / 100 : ℚ)) "SI1" 3.25
          = some (xs, ys, zs) ∧ (2.574 : ℚ) ∈ zs) ∧
    (∀ v ∈ (generate_diamond_geometry (fun _ => 1) (fun _ => 1) (fun _ => 0)
        57 61.5 1).verts, v.2.2 ≤ 1.399125) ∧
    ¬ (2.574 : ℚ) ≤ 1.399125 := by
  refine ⟨fun n => by norm_num [ValidEntropy],
    by norm_num [generate_diamond_geometry], ?_, ?_, by norm_num⟩
  · refine ⟨_, _, _, rfl, ?_⟩
    exact List.mem_map.mpr ⟨0, by decide, by norm_num⟩
  · intro v hv
    simp only [generate_diamond_geometry, List.mem_append, List.mem_map,
      List.mem_singleton, List.mem_cons, List.not_mem_nil, or_false,
      List.mem_finRange, true_and] at hv
    rcases hv with ((rfl | ⟨i, rfl⟩) | ⟨i, rfl⟩) | rfl <;> norm_num

/-- Claim C2, amended: the sampled inclusion points are clipped to the
girdle cylinder but not to the facet envelope in height.  For a
positive girdle radius r and any valid entropy stream, every app.py
sample satisfies x² + y² ≤ r² (indeed x and y lie within ±0.7·r) and
0 ≤ z ≤ 0.8·r, and every visualizer.py sample satisfies x² + y² ≤ r²
and 0 ≤ z ≤ 0.5·r: the points always sit on or above the girdle plane,
hence strictly above the culet (whose z is negative whenever carat and
depth are positive), but — as the counterexample shows — they can
exceed the table plane. -/
theorem claim2_amended_inclusion_bounds (u : ℕ → ℚ) (clarity : String)
    (r : ℚ) (hu : ValidEntropy u) (hr : 0 < r) :
    (∀ xs ys zs, generate_inclusions u clarity r = some (xs, ys, zs) →
      (∀ x ∈ xs, ∀ y ∈ ys, x ^ 2 + y ^ 2 ≤ r ^ 2) ∧
      (∀ z ∈ zs, 0 ≤ z ∧ z ≤ r * 0.8)) ∧
    (∀ xs ys zs, generate_inclusions_viz u clarity r = some (xs, ys, zs) →
      (∀ x ∈ xs, ∀ y ∈ ys, x ^ 2 + y ^ 2 ≤ r ^ 2) ∧
      (∀ z ∈ zs, 0 ≤ z ∧ z ≤ r * 0.5)) := by
  have hxy : ∀ (b : ℚ), 0 ≤ b → b ≤ 0.7 → ∀ off count,
      ∀ x ∈ uniform (-(r * b)) (r * b) u off count, x ^ 2 ≤ (r * b) ^ 2 := by
    intro b hb0 hb7 off count x hx
    obtain ⟨i, _, rfl⟩ := List.mem_map.mp hx
    have hui := hu (off + i)
    have hrb : 0 ≤ r * b := mul_nonneg hr.le hb0
    refine sq_le_sq' ?_ ?_ <;> nlinarith [hui.1, hui.2]
  have hz : ∀ (b : ℚ), 0 ≤ b → ∀ off count,
      ∀ z ∈ uniform 0 (r * b) u off count, 0 ≤ z ∧ z ≤ r * b := by
    intro b hb0 off count z hz
    obtain ⟨i, _, rfl⟩ := List.mem_map.mp hz
    have hui := hu (off + i)
    have hrb : 0 ≤ r * b := mul_nonneg hr.le hb0
    constructor <;> nlinarith [hui.1, hui.2]
  constructor
  · intro xs ys zs hs
    rw [generate_inclusions] at hs
    by_cases hc : inclusion_count_app clarity = 0
    · simp [hc] at hs
    · rw [if_neg hc] at hs
      obtain ⟨rfl, rfl, rfl⟩ : _ ∧ _ ∧ _ :=
        by simpa [Prod.ext_iff] using hs.symm
      refine ⟨?_, ?_⟩
      · intro x hx y hy
        have h1 := hxy 0.7 (by norm_num) (by norm_num) _ _ x hx
        have h2 := hxy 0.7 (by norm_num) (by norm_num) _ _ y hy
        nlinarith [sq_nonneg r]
      · intro z hzz
        have := hz 0.8 (by norm_num) _ _ z hzz
        exact this
  · intro xs ys zs hs
    rw [generate_inclusions_viz] at hs
    by_cases hc : inclusion_count_viz clarity = 0
    · simp [hc] at hs
    · rw [if_neg hc] at hs
      obtain ⟨rfl, rfl, rfl⟩ : _ ∧ _ ∧ _ :=
        by simpa [Prod.ext_iff] using hs.symm
      refine ⟨?_, ?_⟩
      · intro x hx y hy
        have h1 := hxy 0.6 (by norm_num) (by norm_num) _ _ x hx
        have h2 := hxy 0.6 (by norm_num) (by norm_num) _ _ y hy
        nlinarith [sq_nonneg r]
      · intro z hzz
        have := hz 0.5 (by norm_num) _ _ z hzz
        exact this

/-- Witness for the amended claim C2: the SI1 samples at radius 3.25
under the constant entropy stream 99/100 satisfy the stated bounds. -/
theorem claim2_amended_witness :
    (∀ x ∈ uniform (-(3.25 * 0.7)) (3.25 * 0.7) (fun _ => (99 / 100 : ℚ))
        0 40,
      ∀ y ∈ uniform (-(3.25 * 0.7)) (3.25 * 0.7) (fun _ => (99 / 100 : ℚ))
        40 40,
      x ^ 2 + y ^ 2 ≤ (3.25 : ℚ) ^ 2) ∧
    (∀ z ∈ uniform 0 (3.25 * 0.8) (fun _ => (99 / 100 : ℚ)) 80 40,
      0 ≤ z ∧ z ≤ 3.25 * 0.8) :=
  (claim2_amended_inclusion_bounds (fun _ => (99 / 100 : ℚ)) "SI1" 3.25
    (fun n => by norm_num [ValidEntropy]) (by norm_num)).1
    (uniform (-(3.25 * 0.7)) (3.25 * 0.7) (fun _ => (99 / 100 : ℚ)) 0 40)
    (uniform (-(3.25 * 0.7)) (3.25 * 0.7) (fun _ => (99 / 100 : ℚ)) 40 40)
    (uniform 0 (3.25 * 0.8) (fun _ => (99 / 100 : ℚ)) 80 40) rfl

/-! Claim C10: mesh vertex envelope invariant. -/

/-- Horizontal distance of a ring vertex: a point `(p·cos, p·sin)` has
squared distance `p²` from the axis. -/
theorem ring_vertex_sq (p c s : ℚ) (h : c ^ 2 + s ^ 2 = 1) :
    (p * c) ^ 2 + (p * s) ^ 2 = p ^ 2 := by
  have hh : (p * c) ^ 2 + (p * s) ^ 2 = p ^ 2 * (c ^ 2 + s ^ 2) := by ring
  rw [hh, h, mul_one]

set_option maxHeartbeats 1600000 in
/-- Claim C10: for positive carat (hence positive cube root), table% in
(0, 100] and positive depth%, every vertex of the app.py mesh lies
within the girdle cylinder (x² + y² ≤ radius²) and vertically between
the culet plane `-0.65·td` and the table plane `0.35·td`
(`td = 6.5·carat^(1/3)·depth%/100`); every vertex of the
visualizer.py surface mesh and of its 0.9-scaled inner mesh likewise
lies within the girdle cylinder and between the culet plane
`-0.43·td - 0.01·td` and the table plane `0.15·td + 0.01·td`.  In
particular the table ring never protrudes beyond the girdle. -/
theorem claim10_vertex_envelope (cbrt : ℚ → ℚ) (cosf sinf : Fin 8 → ℚ)
    (u : ℕ → ℚ) (carat table depth : ℚ) (color clarity : String)
    (hpyth : ∀ k : Fin 8, cosf k ^ 2 + sinf k ^ 2 = 1)
    (hc : 0 < cbrt carat) (ht0 : 0 < table) (ht1 : table ≤ 100)
    (hd : 0 < depth) :
    (∀ v ∈ (generate_diamond_geometry cbrt cosf sinf table depth carat).verts,
      v.1 ^ 2 + v.2.1 ^ 2
          ≤ (generate_diamond_geometry cbrt cosf sinf table depth
              carat).radius ^ 2 ∧
      -(6.5 * cbrt carat * (depth / 100) * 0.65) ≤ v.2.2 ∧
      v.2.2 ≤ 6.5 * cbrt carat * (depth / 100) * 0.35) ∧
    (∀ v ∈ (create_diamond_fig cbrt cosf sinf u carat table depth color
        clarity).surfVerts,
      v.1 ^ 2 + v.2.1 ^ 2 ≤ (6.5 * cbrt carat / 2) ^ 2 ∧
      -(6.5 * cbrt carat * (depth / 100) * 0.43)
          - 6.5 * cbrt carat * (depth / 100) * 0.02 / 2 ≤ v.2.2 ∧
      v.2.2 ≤ 6.5 * cbrt carat * (depth / 100) * 0.15
          + 6.5 * cbrt carat * (depth / 100) * 0.02 / 2) ∧
    (∀ v ∈ (create_diamond_fig cbrt cosf sinf u carat table depth color
        clarity).innerVerts,
      v.1 ^ 2 + v.2.1 ^ 2 ≤ (6.5 * cbrt carat / 2) ^ 2 ∧
      -(6.5 * cbrt carat * (depth / 100) * 0.43)
          - 6.5 * cbrt carat * (depth / 100) * 0.02 / 2 ≤ v.2.2 ∧
      v.2.2 ≤ 6.5 * cbrt carat * (depth / 100) * 0.15
          + 6.5 * cbrt carat * (depth / 100) * 0.02 / 2) := by
  have htd : 0 < 6.5 * cbrt carat * (depth / 100) := by
    have h1 : 0 < 6.5 * cbrt carat := by nlinarith
    exact mul_pos h1 (by positivity)
  have hq0 : 0 < table / 100 := by positivity
  have hq1 : table / 100 ≤ 1 := by linarith
  have htr_le : (6.5 * cbrt carat / 2 * (table / 100)) ^ 2
      ≤ (6.5 * cbrt carat / 2) ^ 2 := by
    nlinarith [sq_nonneg (6.5 * cbrt carat / 2), hq0.le, hq1,
      mul_nonneg (mul_nonneg (sq_nonneg (6.5 * cbrt carat / 2))
        (by linarith : (0 : ℚ) ≤ 1 - table / 100))
        (by linarith : (0 : ℚ) ≤ 1 + table / 100)]
  have happ : ∀ v ∈ (generate_diamond_geometry cbrt cosf sinf table depth
      carat).verts,
      v.1 ^ 2 + v.2.1 ^ 2
          ≤ (generate_diamond_geometry cbrt cosf sinf table depth
              carat).radius ^ 2 ∧
      -(6.5 * cbrt carat * (depth / 100) * 0.65) ≤ v.2.2 ∧
      v.2.2 ≤ 6.5 * cbrt carat * (depth / 100) * 0.35 := by
    intro v hv
    simp only [generate_diamond_geometry, List.mem_append, List.mem_map,
      List.mem_singleton, List.mem_cons, List.not_mem_nil, or_false,
      List.mem_finRange, true_and] at hv ⊢
    rcases hv with ((rfl | ⟨i, rfl⟩) | ⟨i, rfl⟩) | rfl
    · exact ⟨by norm_num; positivity, by nlinarith, by nlinarith⟩
    · exact ⟨by rw [ring_vertex_sq _ _ _ (hpyth i)]; exact htr_le,
        by nlinarith, by nlinarith⟩
    · exact ⟨by rw [ring_vertex_sq _ _ _ (hpyth i)],
        by nlinarith, by nlinarith⟩
    · exact ⟨by norm_num; positivity, by nlinarith, by nlinarith⟩
  have hviz : ∀ v ∈ (create_diamond_fig cbrt cosf sinf u carat table depth
      color clarity).surfVerts,
      v.1 ^ 2 + v.2.1 ^ 2 ≤ (6.5 * cbrt carat / 2) ^ 2 ∧
      -(6.5 * cbrt carat * (depth / 100) * 0.43)
          - 6.5 * cbrt carat * (depth / 100) * 0.02 / 2 ≤ v.2.2 ∧
      v.2.2 ≤ 6.5 * cbrt carat * (depth / 100) * 0.15
          + 6.5 * cbrt carat * (depth / 100) * 0.02 / 2 := by
    intro v hv
    simp only [create_diamond_fig, List.mem_flatMap, List.mem_cons,
      List.not_mem_nil, or_false, List.mem_finRange, true_and] at hv
    obtain ⟨i, hv⟩ := hv
    have hp1 : (6.5 * cbrt carat / 2 * (table / 100) * cosf i) ^ 2
        + (6.5 * cbrt carat / 2 * (table / 100) * sinf i) ^ 2
        = (6.5 * cbrt carat / 2 * (table / 100)) ^ 2 :=
      ring_vertex_sq _ _ _ (hpyth i)
    have hp2 : (6.5 * cbrt carat / 2 * (table / 100) * cosf (i + 1)) ^ 2
        + (6.5 * cbrt carat / 2 * (table / 100) * sinf (i + 1)) ^ 2
        = (6.5 * cbrt carat / 2 * (table / 100)) ^ 2 :=
      ring_vertex_sq _ _ _ (hpyth (i + 1))
    have hg1 : (6.5 * cbrt carat / 2 * cosf i) ^ 2
        + (6.5 * cbrt carat / 2 * sinf i) ^ 2
        = (6.5 * cbrt carat / 2) ^ 2 := ring_vertex_sq _ _ _ (hpyth i)
    have hg2 : (6.5 * cbrt carat / 2 * cosf (i + 1)) ^ 2
        + (6.5 * cbrt carat / 2 * sinf (i + 1)) ^ 2
        = (6.5 * cbrt carat / 2) ^ 2 := ring_vertex_sq _ _ _ (hpyth (i + 1))
    rcases hv with rfl | rfl | rfl | rfl | rfl | rfl | rfl | rfl | rfl | rfl
      | rfl | rfl | rfl | rfl | rfl | rfl | rfl | rfl
    all_goals refine ⟨?_, ?_, ?_⟩
    all_goals first
      | (norm_num; positivity)
      | (rw [hp1]; exact htr_le)
      | (rw [hp2]; exact htr_le)
      | (rw [hg1])
      | (rw [hg2])
      | nlinarith
  refine ⟨happ, hviz, ?_⟩
  intro v hv
  have hmem : ∃ w ∈ (create_diamond_fig cbrt cosf sinf u carat table depth
      color clarity).surfVerts, (w.1 * 0.9, w.2.1 * 0.9, w.2.2 * 0.9) = v := by
    simpa only [create_diamond_fig, List.mem_map] using hv
  obtain ⟨w, hw, rfl⟩ := hmem
  obtain ⟨hw1, hw2, hw3⟩ := hviz w hw
  refine ⟨by nlinarith [sq_nonneg (6.5 * cbrt carat / 2)], by nlinarith,
    by nlinarith⟩

/-- Witness for claim C10 at carat 1 (cube root 1), table 57%, depth
61.5%, cos/sin the constant Pythagorean pair (1, 0), instantiated at
the table-plane centre vertex of the mesh. -/
theorem claim10_witness :
    ((0 : ℚ), (0 : ℚ), (6.5 : ℚ) * 1 * (61.5 / 100) * 0.35).1 ^ 2
        + ((0 : ℚ), (0 : ℚ), (6.5 : ℚ) * 1 * (61.5 / 100) * 0.35).2.1 ^ 2
        ≤ (generate_diamond_geometry (fun _ => 1) (fun _ => 1) (fun _ => 0)
            57 61.5 1).radius ^ 2 ∧
    -((6.5 : ℚ) * 1 * (61.5 / 100) * 0.65)
        ≤ ((0 : ℚ), (0 : ℚ), (6.5 : ℚ) * 1 * (61.5 / 100) * 0.35).2.2 ∧
    ((0 : ℚ), (0 : ℚ), (6.5 : ℚ) * 1 * (61.5 / 100) * 0.35).2.2
        ≤ 6.5 * 1 * (61.5 / 100) * 0.35 :=
  (claim10_vertex_envelope (fun _ => 1) (fun _ => 1) (fun _ => 0)
    (fun _ => 0) 1 57 61.5 "G" "VS2" (fun _ => by norm_num) (by norm_num)
    (by norm_num) (by norm_num) (by norm_num)).1
    ((0 : ℚ), (0 : ℚ), (6.5 : ℚ) * 1 * (61.5 / 100) * 0.35)
    (by simp [generate_diamond_geometry])

end DiamondApp
